import Mathlib

/-!
Shallow embedding of the numeric core of the twisted-graphene simulator
(src/app1.py; src/app2.py contains byte-identical copies of the same core
functions).  All numpy operations used by the core are elementwise over the
grid, so each array function is modelled by its pointwise action on one grid
point (a pair of reals); explicit grid-level lifts over square `Fin n`-indexed
arrays are provided where a claim speaks about whole arrays or shapes.
Floating-point arithmetic is modelled by exact real arithmetic.
-/

namespace TwistedGraphene

/-- Models `np.radians`: degrees to radians, `d * π / 180`. -/
noncomputable def radians (d : ℝ) : ℝ := d * Real.pi / 180

/-- Models the `strain_matrix` built inside `apply_strain` (src/app1.py lines
9-14): `θ = radians(angle)`, `f = percent / 100`,
`M = [[1+f·cos²θ, f·sinθ·cosθ], [f·sinθ·cosθ, 1+f·sin²θ]]`. -/
noncomputable def strain_matrix (strain_percent strain_angle_deg : ℝ) :
    Matrix (Fin 2) (Fin 2) ℝ :=
  let angle_rad := radians strain_angle_deg
  let strain_fraction := strain_percent / 100
  let eps_xx := strain_fraction * Real.cos angle_rad ^ 2
  let eps_yy := strain_fraction * Real.sin angle_rad ^ 2
  let eps_xy := strain_fraction * Real.sin angle_rad * Real.cos angle_rad
  Matrix.of ![![1 + eps_xx, eps_xy], ![eps_xy, 1 + eps_yy]]

/-- Models `apply_strain` (src/app1.py lines 8-19) at one grid point: the
source stacks `X,Y` into `coords` along the last axis and computes
`coords @ strain_matrix.T`, which at each grid point is the row vector
`(x, y)` multiplied by `Mᵀ`. -/
noncomputable def apply_strain (x y strain_percent strain_angle_deg : ℝ) : ℝ × ℝ :=
  let M := strain_matrix strain_percent strain_angle_deg
  let coords : Fin 2 → ℝ := ![x, y]
  let strained := Matrix.vecMul coords M.transpose
  (strained 0, strained 1)

/-- Models `graphene_lattice` (src/app1.py lines 21-25) at one grid point:
sum of three cosines. -/
noncomputable def graphene_lattice (x y a : ℝ) : ℝ :=
  Real.cos (2 * Real.pi * x / a)
    + Real.cos (2 * Real.pi * (0.5 * x + Real.sqrt 3 / 2 * y) / a)
    + Real.cos (2 * Real.pi * (-0.5 * x + Real.sqrt 3 / 2 * y) / a)

/-- Models `rotate_grid` (src/app1.py lines 27-31) at one grid point. -/
noncomputable def rotate_grid (x y angle_deg : ℝ) : ℝ × ℝ :=
  let angle_rad := radians angle_deg
  (x * Real.cos angle_rad - y * Real.sin angle_rad,
   x * Real.sin angle_rad + y * Real.cos angle_rad)

/-- Grid-level lift of `apply_strain` over a square `n × n` grid (numpy
applies the matrix product at every grid point of the stacked array). -/
noncomputable def apply_strain_grid {n : ℕ} (X Y : Fin n → Fin n → ℝ)
    (strain_percent strain_angle_deg : ℝ) :
    (Fin n → Fin n → ℝ) × (Fin n → Fin n → ℝ) :=
  (fun i j => (apply_strain (X i j) (Y i j) strain_percent strain_angle_deg).1,
   fun i j => (apply_strain (X i j) (Y i j) strain_percent strain_angle_deg).2)

/-- Grid-level lift of `rotate_grid` over a square `n × n` grid. -/
noncomputable def rotate_grid_grid {n : ℕ} (X Y : Fin n → Fin n → ℝ)
    (angle_deg : ℝ) : (Fin n → Fin n → ℝ) × (Fin n → Fin n → ℝ) :=
  (fun i j => (rotate_grid (X i j) (Y i j) angle_deg).1,
   fun i j => (rotate_grid (X i j) (Y i j) angle_deg).2)

/-- Grid-level lift of `graphene_lattice` over a square `n × n` grid. -/
noncomputable def graphene_lattice_grid {n : ℕ} (X Y : Fin n → Fin n → ℝ)
    (a : ℝ) : Fin n → Fin n → ℝ :=
  fun i j => graphene_lattice (X i j) (Y i j) a

/-- Models `np.linspace(lo, hi, n)`: `n` evenly spaced samples from `lo` to
`hi` inclusive, sample `i` at `lo + i·(hi−lo)/(n−1)`. -/
noncomputable def linspace (lo hi : ℝ) (n : ℕ) : Fin n → ℝ :=
  fun i => lo + i.val * ((hi - lo) / ((n : ℝ) - 1))

/-- Models the grid construction (src/app1.py lines 51-53):
`x = y = np.linspace(-extent, extent, grid_size)`, `X, Y = np.meshgrid(x, y)`,
so `X i j = x j` (X varies along columns) and `Y i j = y i` (Y varies along
rows). -/
noncomputable def build_grid (extent : ℝ) (grid_size : ℕ) :
    (Fin grid_size → Fin grid_size → ℝ) × (Fin grid_size → Fin grid_size → ℝ) :=
  let x := linspace (-extent) extent grid_size
  let y := linspace (-extent) extent grid_size
  (fun _ j => x j, fun i _ => y i)

/-- Models the bilayer composition (src/app1.py lines 69-74) at one grid
point: strain both layers, evaluate layer 1 unrotated, rotate layer 2 by the
twist angle, evaluate, and sum. -/
noncomputable def bilayer_combined
    (x y strain1 angle1 strain2 angle2 theta_layer2 a : ℝ) : ℝ :=
  let P1 := apply_strain x y strain1 angle1
  let P2 := apply_strain x y strain2 angle2
  let lattice1 := graphene_lattice P1.1 P1.2 a
  let P2r := rotate_grid P2.1 P2.2 theta_layer2
  let lattice2 := graphene_lattice P2r.1 P2r.2 a
  lattice1 + lattice2

/-- Models the trilayer composition (src/app1.py lines 89-97) at one grid
point. -/
noncomputable def trilayer_combined
    (x y strain1 angle1 strain2 angle2 strain3 angle3
     theta_layer2 theta_layer3 a : ℝ) : ℝ :=
  let P1 := apply_strain x y strain1 angle1
  let P2 := apply_strain x y strain2 angle2
  let P3 := apply_strain x y strain3 angle3
  let lattice1 := graphene_lattice P1.1 P1.2 a
  let P2r := rotate_grid P2.1 P2.2 theta_layer2
  let lattice2 := graphene_lattice P2r.1 P2r.2 a
  let P3r := rotate_grid P3.1 P3.2 theta_layer3
  let lattice3 := graphene_lattice P3r.1 P3r.2 a
  lattice1 + lattice2 + lattice3

/-- Grid-level bilayer composition over a square grid. -/
noncomputable def bilayer_combined_grid {n : ℕ} (X Y : Fin n → Fin n → ℝ)
    (strain1 angle1 strain2 angle2 theta_layer2 a : ℝ) : Fin n → Fin n → ℝ :=
  fun i j => bilayer_combined (X i j) (Y i j) strain1 angle1 strain2 angle2
    theta_layer2 a

/-- Grid-level trilayer composition over a square grid. -/
noncomputable def trilayer_combined_grid {n : ℕ} (X Y : Fin n → Fin n → ℝ)
    (strain1 angle1 strain2 angle2 strain3 angle3
     theta_layer2 theta_layer3 a : ℝ) : Fin n → Fin n → ℝ :=
  fun i j => trilayer_combined (X i j) (Y i j) strain1 angle1 strain2 angle2
    strain3 angle3 theta_layer2 theta_layer3 a

/-- Per-layer field as the specification describes it (section 4.5): strain,
then rotation by the twist angle for a non-reference layer, then lattice
evaluation.  The reference layer (layer 1) is never rotated. -/
noncomputable def reference_layer_field (x y percent angle a : ℝ) : ℝ :=
  let P := apply_strain x y percent angle
  graphene_lattice P.1 P.2 a

/-- Per-layer field of a non-reference layer as the specification describes
it: strain, then rotation by the twist angle, then lattice evaluation. -/
noncomputable def twisted_layer_field (x y percent angle twist a : ℝ) : ℝ :=
  let P := apply_strain x y percent angle
  let Pr := rotate_grid P.1 P.2 twist
  graphene_lattice Pr.1 Pr.2 a

theorem apply_strain_eq (x y p d : ℝ) :
    apply_strain x y p d =
      ((1 + p / 100 * Real.cos (radians d) ^ 2) * x
         + p / 100 * Real.sin (radians d) * Real.cos (radians d) * y,
       p / 100 * Real.sin (radians d) * Real.cos (radians d) * x
         + (1 + p / 100 * Real.sin (radians d) ^ 2) * y) := by
  simp only [apply_strain, strain_matrix, Matrix.vecMul, Matrix.dotProduct,
    Fin.sum_univ_two, Matrix.transpose_apply, Matrix.of_apply,
    Matrix.cons_val_zero, Matrix.cons_val_one, Matrix.head_cons]
  exact Prod.ext (by ring) (by ring)

theorem rotate_grid_eq (x y d : ℝ) :
    rotate_grid x y d =
      (x * Real.cos (radians d) - y * Real.sin (radians d),
       x * Real.sin (radians d) + y * Real.cos (radians d)) := rfl

theorem apply_strain_origin (p d : ℝ) : apply_strain 0 0 p d = (0, 0) := by
  rw [apply_strain_eq]
  norm_num

theorem rotate_grid_origin (d : ℝ) : rotate_grid 0 0 d = (0, 0) := by
  rw [rotate_grid_eq]
  norm_num

theorem graphene_lattice_origin (a : ℝ) : graphene_lattice 0 0 a = 3 := by
  unfold graphene_lattice
  norm_num

/-- C1: `apply_strain` maps every grid point `(x,y)` to the image under
`M = [[1+ε_xx, ε_xy], [ε_xy, 1+ε_yy]]` with `θ = angle_degrees·π/180`,
`f = percent/100`, `ε_xx = f·cos²θ`, `ε_yy = f·sin²θ`, `ε_xy = f·sinθ·cosθ`:
`x' = (1+ε_xx)·x + ε_xy·y` and `y' = ε_xy·x + (1+ε_yy)·y` at every grid
point. -/
theorem claim1_apply_strain_pointwise {n : ℕ} (X Y : Fin n → Fin n → ℝ)
    (percent angle_degrees : ℝ) (i j : Fin n) :
    (apply_strain_grid X Y percent angle_degrees).1 i j
        = (1 + percent / 100 * Real.cos (angle_degrees * Real.pi / 180) ^ 2) * X i j
          + percent / 100 * Real.sin (angle_degrees * Real.pi / 180)
            * Real.cos (angle_degrees * Real.pi / 180) * Y i j
    ∧ (apply_strain_grid X Y percent angle_degrees).2 i j
        = percent / 100 * Real.sin (angle_degrees * Real.pi / 180)
            * Real.cos (angle_degrees * Real.pi / 180) * X i j
          + (1 + percent / 100 * Real.sin (angle_degrees * Real.pi / 180) ^ 2) * Y i j := by
  constructor <;> simp only [apply_strain_grid, apply_strain_eq, radians]

/-- C5: at `percent = 0` the strain matrix is the identity, so
`apply_strain(X, Y, 0, angle)` returns `(X, Y)` exactly, for any angle. -/
theorem claim5_zero_strain_identity {n : ℕ} (X Y : Fin n → Fin n → ℝ)
    (angle : ℝ) : apply_strain_grid X Y 0 angle = (X, Y) := by
  have h : ∀ x y : ℝ, apply_strain x y 0 angle = (x, y) := by
    intro x y
    rw [apply_strain_eq]
    norm_num
  unfold apply_strain_grid
  simp [h]

/-- C6: `rotate_grid(X, Y, 0)` returns `(X, Y)` exactly unchanged, and
`rotate_grid(X, Y, 360)` equals `(X, Y)` (exactly, in the real-arithmetic
model; the code matches within floating-point tolerance). -/
theorem claim6_rotation_identities {n : ℕ} (X Y : Fin n → Fin n → ℝ) :
    rotate_grid_grid X Y 0 = (X, Y) ∧ rotate_grid_grid X Y 360 = (X, Y) := by
  have h0 : ∀ x y : ℝ, rotate_grid x y 0 = (x, y) := by
    intro x y
    rw [rotate_grid_eq]
    unfold radians
    norm_num
  have h360 : ∀ x y : ℝ, rotate_grid x y 360 = (x, y) := by
    intro x y
    rw [rotate_grid_eq]
    have hr : radians 360 = 2 * Real.pi := by unfold radians; ring
    rw [hr, Real.cos_two_pi, Real.sin_two_pi]
    norm_num
  constructor
  · unfold rotate_grid_grid
    simp [h0]
  · unfold rotate_grid_grid
    simp [h360]

/-- C9: `rotate_grid` is an isometry of the plane: for every point `(x,y)`
and every angle, `X_rot² + Y_rot² = x² + y²` in exact real arithmetic. -/
theorem claim9_rotation_isometry (x y angle_degrees : ℝ) :
    (rotate_grid x y angle_degrees).1 ^ 2 + (rotate_grid x y angle_degrees).2 ^ 2
      = x ^ 2 + y ^ 2 := by
  rw [rotate_grid_eq]
  have h := Real.sin_sq_add_cos_sq (radians angle_degrees)
  simp only
  linear_combination (x ^ 2 + y ^ 2) * h

/-- C10: `apply_strain` is 180°-periodic in the strain direction:
`apply_strain(X, Y, p, d + 180) = apply_strain(X, Y, p, d)` in exact real
arithmetic, because `ε_xx`, `ε_yy`, `ε_xy` are invariant under `θ ↦ θ+π`. -/
theorem claim10_strain_angle_periodic {n : ℕ} (X Y : Fin n → Fin n → ℝ)
    (percent angle_degrees : ℝ) :
    apply_strain_grid X Y percent (angle_degrees + 180)
      = apply_strain_grid X Y percent angle_degrees := by
  have key : ∀ x y : ℝ,
      apply_strain x y percent (angle_degrees + 180)
        = apply_strain x y percent angle_degrees := by
    intro x y
    rw [apply_strain_eq, apply_strain_eq]
    have hrad : radians (angle_degrees + 180) = radians angle_degrees + Real.pi := by
      unfold radians; ring
    rw [hrad, Real.cos_add_pi, Real.sin_add_pi]
    exact Prod.ext (by ring) (by ring)
  unfold apply_strain_grid
  simp [key]

/-- C2 counterexample: the lattice field is NOT periodic with period `a` in
`x`.  At `x = 0`, `y = 0`, `a = 1` (a positive lattice constant),
`evaluate(x + a, y, a) = cos 2π + cos π + cos (−π) = −1` while
`evaluate(x, y, a) = 3`. -/
theorem claim2_counterexample :
    (0 : ℝ) < 1 ∧ graphene_lattice (0 + 1) 0 1 ≠ graphene_lattice 0 0 1 := by
  refine ⟨by norm_num, ?_⟩
  have e0 : graphene_lattice 0 0 1 = 3 := graphene_lattice_origin 1
  have e1 : graphene_lattice (0 + 1) 0 1 = -1 := by
    unfold graphene_lattice
    have h1 : 2 * Real.pi * (0 + 1) / 1 = 2 * Real.pi := by ring
    have h2 : 2 * Real.pi * (0.5 * (0 + 1) + Real.sqrt 3 / 2 * 0) / 1 = Real.pi := by
      ring
    have h3 : 2 * Real.pi * (-0.5 * (0 + 1) + Real.sqrt 3 / 2 * 0) / 1 = -Real.pi := by
      ring
    rw [h1, h2, h3, Real.cos_two_pi, Real.cos_pi, Real.cos_neg, Real.cos_pi]
    norm_num
  rw [e0, e1]
  norm_num

/-- C2 amended: the lattice field is periodic in `x` with period `2a` (not
`a`): for every finite `x`, `y` and positive `a`,
`evaluate(x + 2a, y, a) = evaluate(x, y, a)` (exactly, in the
real-arithmetic model). -/
theorem claim2_amended_periodicity (x y a : ℝ) (ha : 0 < a) :
    graphene_lattice (x + 2 * a) y a = graphene_lattice x y a := by
  have ha' : a ≠ 0 := ne_of_gt ha
  unfold graphene_lattice
  have h1 : 2 * Real.pi * (x + 2 * a) / a
      = 2 * Real.pi * x / a + 2 * Real.pi + 2 * Real.pi := by
    field_simp
    ring
  have h2 : 2 * Real.pi * (0.5 * (x + 2 * a) + Real.sqrt 3 / 2 * y) / a
      = 2 * Real.pi * (0.5 * x + Real.sqrt 3 / 2 * y) / a + 2 * Real.pi := by
    field_simp
    ring
  have h3 : 2 * Real.pi * (-0.5 * (x + 2 * a) + Real.sqrt 3 / 2 * y) / a
      = 2 * Real.pi * (-0.5 * x + Real.sqrt 3 / 2 * y) / a - 2 * Real.pi := by
    field_simp
    ring
  rw [h1, h2, h3, Real.cos_add_two_pi, Real.cos_add_two_pi, Real.cos_add_two_pi,
    Real.cos_sub_two_pi]

theorem claim2_amended_periodicity_witness :
    (0 : ℝ) < 1 ∧ graphene_lattice (0 + 2 * 1) 0 1 = graphene_lattice 0 0 1 :=
  ⟨by norm_num, claim2_amended_periodicity 0 0 1 (by norm_num)⟩

/-- C3: the combined field for Bilayer mode equals the elementwise sum
`L1 + L2` of the two per-layer fields, and for Trilayer mode `L1 + L2 + L3`,
where layer 1 is strained and evaluated without rotation (reference layer)
and layers 2 and 3 are strained, rotated by their twist angles, and
evaluated; the output has the same (square) shape as the input grid. -/
theorem claim3_compose_is_layer_sum {n : ℕ} (X Y : Fin n → Fin n → ℝ)
    (strain1 angle1 strain2 angle2 strain3 angle3 theta2 theta3 a : ℝ)
    (i j : Fin n) :
    bilayer_combined_grid X Y strain1 angle1 strain2 angle2 theta2 a i j
        = reference_layer_field (X i j) (Y i j) strain1 angle1 a
          + twisted_layer_field (X i j) (Y i j) strain2 angle2 theta2 a
    ∧ trilayer_combined_grid X Y strain1 angle1 strain2 angle2 strain3 angle3
        theta2 theta3 a i j
        = reference_layer_field (X i j) (Y i j) strain1 angle1 a
          + twisted_layer_field (X i j) (Y i j) strain2 angle2 theta2 a
          + twisted_layer_field (X i j) (Y i j) strain3 angle3 theta3 a :=
  ⟨rfl, rfl⟩

/-- C4: each of the three cosines lies in `[-1, 1]`, so the lattice
intensity `L(x,y)` lies in `[-3, 3]` for every finite `x`, `y` and positive
`a`. -/
theorem claim4_lattice_bounded (x y a : ℝ) (ha : 0 < a) :
    -3 ≤ graphene_lattice x y a ∧ graphene_lattice x y a ≤ 3 := by
  unfold graphene_lattice
  have b1l := Real.neg_one_le_cos (2 * Real.pi * x / a)
  have b1u := Real.cos_le_one (2 * Real.pi * x / a)
  have b2l := Real.neg_one_le_cos (2 * Real.pi * (0.5 * x + Real.sqrt 3 / 2 * y) / a)
  have b2u := Real.cos_le_one (2 * Real.pi * (0.5 * x + Real.sqrt 3 / 2 * y) / a)
  have b3l := Real.neg_one_le_cos (2 * Real.pi * (-0.5 * x + Real.sqrt 3 / 2 * y) / a)
  have b3u := Real.cos_le_one (2 * Real.pi * (-0.5 * x + Real.sqrt 3 / 2 * y) / a)
  constructor <;> linarith

theorem claim4_lattice_bounded_witness :
    (0 : ℝ) < 1 ∧ (-3 ≤ graphene_lattice 0 0 1 ∧ graphene_lattice 0 0 1 ≤ 3) :=
  ⟨by norm_num, claim4_lattice_bounded 0 0 1 (by norm_num)⟩

/-- C7: in the Bilayer literal scenario (layer 1: strain 2.0% at 0°; layer
2: strain 3.0% at 30°, twist 1.5°; `a = 2.46`) the composed field at the
point `(0,0)` equals `6`, and in the Trilayer literal scenario (adding
layer 3: strain 4.0% at 60°, twist −1.5°) it equals `9`: strain and
rotation fix the origin and the lattice evaluates to `3` there. -/
theorem claim7_center_values :
    bilayer_combined 0 0 2 0 3 30 1.5 2.46 = 6
    ∧ trilayer_combined 0 0 2 0 3 30 4 60 1.5 (-1.5) 2.46 = 9 := by
  constructor
  · unfold bilayer_combined
    simp only [apply_strain_origin, rotate_grid_origin, graphene_lattice_origin]
    norm_num
  · unfold trilayer_combined
    simp only [apply_strain_origin, rotate_grid_origin, graphene_lattice_origin]
    norm_num

/-- C8: for `extent > 0` and `grid_size ≥ 2` the grid builder produces
`grid_size` evenly spaced axis samples spanning `[-extent, extent]` (first
sample exactly `-extent`, last exactly `extent`, uniform spacing
`2·extent/(grid_size−1)`), and the full Cartesian grid has `Y` varying
along rows and `X` along columns, with `X` and `Y` square of identical
shape by construction. -/
theorem claim8_grid_builder (extent : ℝ) (n : ℕ) (he : 0 < extent)
    (hn : 2 ≤ n) :
    linspace (-extent) extent n ⟨0, by omega⟩ = -extent
    ∧ linspace (-extent) extent n ⟨n - 1, by omega⟩ = extent
    ∧ linspace (-extent) extent n
        = (fun i => -extent + i.val * (2 * extent / ((n : ℝ) - 1)))
    ∧ (build_grid extent n).1 = (fun _ j => linspace (-extent) extent n j)
    ∧ (build_grid extent n).2 = (fun i _ => linspace (-extent) extent n i) := by
  have h2 : (2 : ℝ) ≤ (n : ℝ) := by exact_mod_cast hn
  have hne : (n : ℝ) - 1 ≠ 0 := by intro h; linarith
  refine ⟨?_, ?_, ?_, rfl, rfl⟩
  · unfold linspace
    norm_num
  · unfold linspace
    have hcast : ((n - 1 : ℕ) : ℝ) = (n : ℝ) - 1 := by
      have h1 : 1 ≤ n := by omega
      push_cast [h1]
      ring
    simp only [hcast]
    field_simp
  · unfold linspace
    funext i
    congr 1
    ring

theorem claim8_grid_builder_witness :
    (0 : ℝ) < 10 ∧ 2 ≤ 2
    ∧ (linspace (-10) 10 2 ⟨0, by omega⟩ = -10
       ∧ linspace (-10) 10 2 ⟨2 - 1, by omega⟩ = 10
       ∧ linspace (-10) 10 2
           = (fun i => -10 + i.val * (2 * 10 / (((2 : ℕ) : ℝ) - 1)))
       ∧ (build_grid 10 2).1 = (fun _ j => linspace (-10) 10 2 j)
       ∧ (build_grid 10 2).2 = (fun i _ => linspace (-10) 10 2 i)) :=
  ⟨by norm_num, by omega, claim8_grid_builder 10 2 (by norm_num) (by omega)⟩

end TwistedGraphene
